import Mathlib

/-!
Verification development for the marsha upload-state subsystem
(src/backend/marsha/core/serializers.py, src/backend/marsha/core/api/base.py).

The Python code is shallowly embedded: strings are handled at the character-list
level where the regular expression KEY_REGEX must be modelled precisely, datetimes
are represented by their Unix timestamp (a Nat), the database row targeted by a
callback is an explicit record, and the write-back plus the emitted signal are
returned by the embedded view function instead of being performed as side effects.
Parts of the repository that the files under study import but that are not among
the three sources (marsha.core.models, marsha.core.defaults, marsha.core.utils)
are modelled from the specification; each such definition says so in its doc
comment.
-/

namespace Marsha

/-- Character class of the regex fragment used for UUIDs in serializers.py
(characters 0-9, A-F, a-f). -/
def isHexChar (c : Char) : Bool :=
  c.isDigit || (decide ('a' ≤ c) && decide (c ≤ 'f')) || (decide ('A' ≤ c) && decide (c ≤ 'F'))

/-- Character class of the regex fragment for the language part of a key suffix:
lowercase letters or a dash. -/
def isLangChar (c : Char) : Bool :=
  c.isLower || c == '-'

/-- Split a character list on a separator character; the result is the list of
(possibly empty) segments between occurrences of the separator, so it is never
empty. Mirrors how an anchored regex alternating character classes that exclude
the separator decomposes its subject. -/
def splitOnChar (sep : Char) : List Char → List (List Char)
  | [] => [[]]
  | c :: cs =>
    if c = sep then [] :: splitOnChar sep cs
    else (c :: (splitOnChar sep cs).headD []) :: (splitOnChar sep cs).tail

theorem splitOnChar_ne_nil (sep : Char) (l : List Char) : splitOnChar sep l ≠ [] := by
  cases l with
  | nil => simp [splitOnChar]
  | cons c cs =>
    simp only [splitOnChar]
    split <;> simp

theorem splitOnChar_eq_single (sep : Char) (l : List Char) (h : ∀ c ∈ l, c ≠ sep) :
    splitOnChar sep l = [l] := by
  induction l with
  | nil => rfl
  | cons c cs ih =>
    have hc : c ≠ sep := h c (List.mem_cons_self c cs)
    have ih2 := ih (fun x hx => h x (List.mem_cons_of_mem c hx))
    simp [splitOnChar, if_neg hc, ih2]

theorem splitOnChar_append (sep : Char) (a r : List Char) (h : ∀ c ∈ a, c ≠ sep) :
    splitOnChar sep (a ++ sep :: r) = a :: splitOnChar sep r := by
  induction a with
  | nil => simp [splitOnChar]
  | cons c cs ih =>
    have hc : c ≠ sep := h c (List.mem_cons_self c cs)
    have ih2 := ih (fun x hx => h x (List.mem_cons_of_mem c hx))
    simp [List.cons_append, splitOnChar, if_neg hc, ih2]

theorem mem_splitOnChar (sep : Char) (l : List Char) (c : Char) (hc : c ∈ l) :
    c = sep ∨ ∃ s, s ∈ splitOnChar sep l ∧ c ∈ s := by
  induction l with
  | nil => cases hc
  | cons x xs ih =>
    obtain ⟨h0, t, ht⟩ := List.exists_cons_of_ne_nil (splitOnChar_ne_nil sep xs)
    by_cases hx : x = sep
    · rcases List.mem_cons.mp hc with h1 | h2
      · left; rw [h1, hx]
      · rcases ih h2 with h | ⟨s, hs, hcs⟩
        · left; exact h
        · refine Or.inr ⟨s, ?_, hcs⟩
          simp only [splitOnChar, if_pos hx]
          exact List.mem_cons_of_mem _ hs
    · have hsplit : splitOnChar sep (x :: xs) = (x :: h0) :: t := by
        simp only [splitOnChar, if_neg hx, ht, List.headD_cons, List.tail_cons]
      rcases List.mem_cons.mp hc with h1 | h2
      · refine Or.inr ⟨x :: h0, ?_, ?_⟩
        · rw [hsplit]; exact List.mem_cons_self _ _
        · rw [h1]; exact List.mem_cons_self _ _
      · rcases ih h2 with h | ⟨s, hs, hcs⟩
        · left; exact h
        · rw [ht] at hs
          rcases List.mem_cons.mp hs with hsh | hst
          · refine Or.inr ⟨x :: h0, ?_, ?_⟩
            · rw [hsplit]; exact List.mem_cons_self _ _
            · exact List.mem_cons_of_mem _ (hsh ▸ hcs)
          · refine Or.inr ⟨s, ?_, hcs⟩
            rw [hsplit]
            exact List.mem_cons_of_mem _ hst

/-- UUID_REGEX (serializers.py lines 19-21): five dash-separated groups of hex
characters of lengths 8, 4, 4, 4 and 12. -/
def isUUIDChars (l : List Char) : Bool :=
  match splitOnChar '-' l with
  | [a, b, c, d, e] =>
    decide ([a.length, b.length, c.length, d.length, e.length] = [8, 4, 4, 4, 12])
      && (a ++ b ++ c ++ d ++ e).all isHexChar
  | _ => false

theorem isHexChar_ne_slash (c : Char) (h : isHexChar c = true) : c ≠ '/' := by
  intro he
  rw [he] at h
  exact absurd h (by decide)

theorem isDigit_ne_slash (c : Char) (h : c.isDigit = true) : c ≠ '/' := by
  intro he
  rw [he] at h
  exact absurd h (by decide)

theorem isUUIDChars_no_slash (l : List Char) (h : isUUIDChars l = true) :
    ∀ c ∈ l, c ≠ '/' := by
  intro c hc
  rcases mem_splitOnChar '-' l c hc with h1 | ⟨s, hs, hcs⟩
  · rw [h1]; decide
  · unfold isUUIDChars at h
    split at h
    · next a b c2 d e heq =>
      rw [heq] at hs
      simp only [Bool.and_eq_true] at h
      simp only [List.mem_cons, List.not_mem_nil, or_false] at hs
      have hmem : c ∈ a ++ b ++ c2 ++ d ++ e := by
        rcases hs with rfl | rfl | rfl | rfl | rfl <;>
          · simp only [List.mem_append]
            tauto
      exact isHexChar_ne_slash c (List.all_eq_true.mp h.2 c hmem)
    · exact absurd h (by simp)

/-- Result of a KEY_REGEX match (serializers.py lines 24-28): the three NAMED
groups model_name, object_id and stamp, plus the optional unnamed
lang/mode suffix groups of the pattern (underscore, two-to-ten lang characters,
underscore, a configured timed-text mode). -/
structure ParsedKey where
  model_name : List Char
  object_id : List Char
  stamp : List Char
  suffix : Option (List Char × List Char)
deriving DecidableEq

/-- Match of the tail of the regex against the last slash-separated segment of a
key: a stamp of exactly ten digits, optionally followed by underscore, a lang of
two to ten characters in a-z or dash, underscore, and one of the configured
timed-text modes (TIMED_TEXT_EXTENSIONS, serializers.py line 23). Since the lang
character class excludes the underscore, the lang group extends exactly to the
first underscore after the stamp and the mode must be the whole remainder. -/
def parseStampSuffix (modes : List (List Char)) (d : List Char) :
    Option (List Char × Option (List Char × List Char)) :=
  if (d.take 10).length = 10 ∧ (d.take 10).all Char.isDigit = true then
    match d.drop 10 with
    | [] => some (d.take 10, none)
    | c :: r =>
      if c = '_' then
        match r.dropWhile (fun ch => ch != '_') with
        | c2 :: mode =>
          if c2 = '_' ∧ 2 ≤ (r.takeWhile (fun ch => ch != '_')).length
              ∧ (r.takeWhile (fun ch => ch != '_')).length ≤ 10
              ∧ (r.takeWhile (fun ch => ch != '_')).all isLangChar = true
              ∧ mode ∈ modes then
            some (d.take 10, some (r.takeWhile (fun ch => ch != '_'), mode))
          else none
        | [] => none
      else none
  else none

/-- Match of KEY_REGEX against the slash-separated segments of a key: an owner
UUID, a model name among video, thumbnail and timedtexttrack, an object UUID,
and the stamp segment with its optional suffix. -/
def parseKeyParts (modes : List (List Char)) : List (List Char) → Option ParsedKey
  | [a, b, c, d] =>
    if isUUIDChars a = true
        ∧ (b = "video".data ∨ b = "thumbnail".data ∨ b = "timedtexttrack".data)
        ∧ isUUIDChars c = true then
      match parseStampSuffix modes d with
      | some (stamp, suf) =>
        some { model_name := b, object_id := c, stamp := stamp, suffix := suf }
      | none => none
    else none
  | _ => none

/-- KEY_REGEX.match on a key, i.e. the anchored KEY_PATTERN of serializers.py
lines 24-28, parameterised by the configured timed-text modes. Because every
character class of the pattern excludes the slash, a subject matches exactly
when it has four slash-separated segments each matching its fragment. -/
def parseKeyChars (modes : List (List Char)) (l : List Char) : Option ParsedKey :=
  parseKeyParts modes (splitOnChar '/' l)

/-- Decimal value of a digit string. -/
def digitsToNat (l : List Char) : Nat :=
  l.foldl (fun acc c => acc * 10 + (c.toNat - 48)) 0

/-- Modelled from the spec: time_utils.to_datetime (marsha.core.utils.time_utils
is not among the sources) decodes a 10-digit Unix timestamp; datetimes are
represented throughout by their Unix timestamp as a Nat. -/
def to_datetime (stamp : List Char) : Nat :=
  digitsToNat stamp

/-- The groupdict() of a KEY_REGEX match: the pattern's named groups are exactly
model_name, object_id and stamp — the optional lang/mode suffix groups carry no
name, so they contribute no entry; in particular there is no "extension" entry. -/
def keyElementsDict (pk : ParsedKey) : List (String × String) :=
  [("model_name", pk.model_name.asString),
   ("object_id", pk.object_id.asString),
   ("stamp", pk.stamp.asString)]

/-- UpdateStateSerializer.get_key_elements (serializers.py lines 391-395): the
named groups of the match of the validated key, with uploaded_on added as the
datetime decoded from the stamp. -/
structure KeyElements where
  model_name : String
  object_id : String
  stamp : String
  uploaded_on : Nat
deriving DecidableEq

def get_key_elements (pk : ParsedKey) : KeyElements :=
  { model_name := pk.model_name.asString
    object_id := pk.object_id.asString
    stamp := pk.stamp.asString
    uploaded_on := to_datetime pk.stamp }

theorem parseStampSuffix_stamp_only (modes : List (List Char)) (ts : List Char)
    (h10 : ts.length = 10) (hd : ts.all Char.isDigit = true) :
    parseStampSuffix modes ts = some (ts, none) := by
  have ht : ts.take 10 = ts := List.take_of_length_le (by omega)
  have hdr : ts.drop 10 = [] := List.drop_eq_nil_of_le (by omega)
  unfold parseStampSuffix
  rw [ht, hdr, if_pos ⟨h10, hd⟩]

/-- Modelled from the spec: the upload-state constants of marsha.core.defaults
(not among the sources); sections 3 and 6 of the spec list the states and the
examples of section 8 give their lowercase wire form. -/
def PENDING : String := "pending"

def PROCESSING : String := "processing"

def READY : String := "ready"

def ERROR : String := "error"

/-- An uploadable entity row as far as update_state touches it: the upload state,
the upload datetime (as a Unix timestamp) and the optional file extension
attribute — the only extra_parameters attribute the claims are about. -/
structure Entity where
  upload_state : String
  uploaded_on : Option Nat
  extension : Option String
deriving DecidableEq

/-- Ambient configuration of the endpoint: the ordered shared secrets, the keyed
hash used by the signature check (kept abstract), the configured timed-text modes
that KEY_PATTERN splices in, and which model classes carry an extension
attribute (hasattr of base.py line 117, by s3 model name). -/
structure Config where
  secrets : List String
  mac : String → String → String
  modes : List (List Char)
  hasExtension : String → Bool

/-- A POST request to the update-state endpoint: the raw body bytes
(request.body), the X-Marsha-Signature header, and the body fields the view
touches. A value of an extraParameters entry is Python None (none) or a string. -/
structure UpdateRequest where
  rawBody : String
  headerSignature : Option String
  key : Option String
  state : Option String
  signature : Option String
  extraParameters : List (String × Option String)

/-- Modelled from the spec: validate_signature (marsha.core.utils.api_utils, not
among the sources) computes a keyed hash of the raw body per configured secret
and succeeds if any of them equals the supplied header value (section 4.1 of the
spec, secret rotation); a missing header never validates. -/
def validate_signature (cfg : Config) (sig : Option String) (body : String) : Bool :=
  match sig with
  | none => false
  | some s => cfg.secrets.any (fun secret => cfg.mac secret body == s)

/-- is_valid() of UpdateStateSerializer (serializers.py lines 382-389): the key
must match KEY_REGEX, the state must be one of the PROCESSING, READY and ERROR
choices, and the signature field must be a non-blank string of at most 200
characters; all three fields are required. -/
def serializerValid (cfg : Config) (req : UpdateRequest) : Bool :=
  (match req.key with
   | some k => (parseKeyChars cfg.modes k.data).isSome
   | none => false)
  && (match req.state with
      | some s => [PROCESSING, READY, ERROR].contains s
      | none => false)
  && (match req.signature with
      | some s => decide (1 ≤ s.length) && decide (s.length ≤ 200)
      | none => false)

/-- A value held in serializer.validated_data: a string field or a dict field. -/
inductive FieldVal
  | str (s : String)
  | dict (d : List (String × Option String))
deriving DecidableEq

/-- serializer.validated_data after a successful is_valid(): the framework's
to_internal_value collects exactly the declared writable fields, and
UpdateStateSerializer declares only key, state and signature — notably NOT
extraParameters, although base.py line 114 looks that key up. -/
def validatedData (req : UpdateRequest) : List (String × FieldVal) :=
  [("key", FieldVal.str (req.key.getD "")),
   ("state", FieldVal.str (req.state.getD "")),
   ("signature", FieldVal.str (req.signature.getD ""))]

/-- Modelled from the spec: update_upload_state is defined on the uploadable
models (marsha.core.models, not among the sources). Per section 4.3 of the spec
the new upload_state is applied; uploaded_on is set from the key's embedded
timestamp on a transition to READY and is never set on other transitions (the
view passes None for them); every extra_parameters entry is applied as an
attribute of the entity, of which only extension is modelled. -/
def update_upload_state (e : Entity) (upload_state : String) (uploaded_on : Option Nat)
    (extra : List (String × Option String)) : Entity :=
  let e1 : Entity :=
    { upload_state := upload_state
      uploaded_on := match uploaded_on with | some t => some t | none => e.uploaded_on
      extension := e.extension }
  extra.foldl (fun acc kv => if kv.1 = "extension" then { acc with extension := kv.2 } else acc) e1

/-- Response of the update_state view, payloads abbreviated to their branch;
serverError models an uncaught Python exception, which per section 7 of the spec
surfaces as a generic server error. -/
inductive USResponse
  | badRequest
  | forbidden
  | notFound
  | ok
  | serverError (msg : String)
deriving DecidableEq

/-- Outcome of one call of the update_state view: the response together with the
persisted effects — the entity written back by update_upload_state (none when no
save happened) and whether signal_object_uploaded was sent. -/
structure USOutcome where
  response : USResponse
  savedEntity : Option Entity
  signal : Bool
deriving DecidableEq

/-- Embedding of the update_state view (base.py lines 79-144), in source order:
serializer validation (else 400), signature check against the raw body (else
403), get_key_elements on the validated key, model dispatch by model_name, the
lookup of "extraParameters" in validated_data (line 114) — which raises KeyError,
modelled as serverError, because validated_data never holds that key — and the
remainder this lookup makes unreachable: the extension default for a READY state,
the entity fetch (else 404 with success false), update_upload_state, and the
signal when the state changes into READY. -/
def update_state (cfg : Config) (db : String → String → Option Entity)
    (req : UpdateRequest) : USOutcome :=
  if serializerValid cfg req = false then
    { response := .badRequest, savedEntity := none, signal := false }
  else if validate_signature cfg req.headerSignature req.rawBody = false then
    { response := .forbidden, savedEntity := none, signal := false }
  else
    match parseKeyChars cfg.modes (req.key.getD "").data with
    | none =>
      { response := .serverError "AttributeError on key match"
        savedEntity := none, signal := false }
    | some pk =>
      match (validatedData req).lookup "extraParameters" with
      | some (FieldVal.dict ep) =>
        let ke := get_key_elements pk
        let extra :=
          if req.state = some READY ∧ cfg.hasExtension ke.model_name = true
              ∧ (ep.lookup "extension").isNone then
            ep ++ [("extension", (keyElementsDict pk).lookup "extension")]
          else ep
        match db ke.model_name ke.object_id with
        | none => { response := .notFound, savedEntity := none, signal := false }
        | some obj =>
          let newState := req.state.getD ""
          let obj2 := update_upload_state obj newState
            (if newState = READY then some ke.uploaded_on else none) extra
          { response := .ok, savedEntity := some obj2
            signal := decide (obj.upload_state ≠ newState ∧ newState = READY) }
      | _ =>
        { response := .serverError "KeyError on extraParameters"
          savedEntity := none, signal := false }

/-- Settings the serializer url methods read: AWS_S3_URL_PROTOCOL,
CLOUDFRONT_DOMAIN, CLOUDFRONT_SIGNED_URLS_ACTIVE, VIDEO_RESOLUTIONS, and the
CloudFront presigning of a url (CloudFrontSigner.generate_presigned_url, kept
abstract as a string transformer). -/
structure CFSettings where
  protocol : String
  cloudfront : String
  signedUrlsActive : Bool
  videoResolutions : List Nat
  sign : String → String

/-- Modelled from the spec: time_utils.to_timestamp (marsha.core.utils.time_utils
is not among the sources) renders a datetime as its Unix-timestamp string. -/
def to_timestamp (t : Nat) : String :=
  toString t

/-- A timed text track as its serializer reads it. -/
structure TimedTextTrackObj where
  uploaded_on : Option Nat
  videoPk : String
  language : String
  mode : String

/-- TimedTextTrackSerializer.get_url (serializers.py lines 132-173): None while
uploaded_on is not set, otherwise the vtt url under the CloudFront domain,
presigned when signed urls are active. -/
def ttt_get_url (st : CFSettings) (obj : TimedTextTrackObj) : Option String :=
  match obj.uploaded_on with
  | none => none
  | some t =>
    let base := st.protocol ++ "://" ++ st.cloudfront ++ "/" ++ obj.videoPk
    let url := base ++ "/timedtext/" ++ to_timestamp t ++ "_" ++ obj.language
      ++ (if obj.mode ≠ "" then "_" ++ obj.mode else "") ++ ".vtt"
    some (if st.signedUrlsActive then st.sign url else url)

/-- A thumbnail as its serializer reads it. -/
structure ThumbnailObj where
  uploaded_on : Option Nat
  videoPk : String

/-- ThumbnailSerializer.get_urls (serializers.py lines 228-259): None while
uploaded_on is not set, otherwise one jpg url per configured video resolution. -/
def thumbnail_get_urls (st : CFSettings) (obj : ThumbnailObj) :
    Option (List (Nat × String)) :=
  match obj.uploaded_on with
  | none => none
  | some t =>
    let base := st.protocol ++ "://" ++ st.cloudfront ++ "/" ++ obj.videoPk
    some (st.videoResolutions.map (fun r =>
      (r, base ++ "/thumbnails/" ++ to_timestamp t ++ "_" ++ toString r ++ ".jpg")))

/-- A video as its serializer reads it: obj.thumbnail raising DoesNotExist is
modelled by none. -/
structure VideoObj where
  pk : String
  uploaded_on : Option Nat
  thumbnail : Option ThumbnailObj

/-- The dictionary VideoSerializer.get_urls builds. -/
structure VideoUrls where
  mp4 : List (Nat × String)
  thumbnails : List (Nat × String)
  manifests_dash : String
  manifests_hls : String
  previews : String

/-- VideoSerializer.get_urls (serializers.py lines 297-379): None while
uploaded_on is None, otherwise the mp4 urls (presigned when signed urls are
active), the per-resolution thumbnails falling back to the video's own previews
when the thumbnail has no url for a resolution, the adaptive-bit-rate manifests
and the preview sprite. -/
def video_get_urls (st : CFSettings) (obj : VideoObj) : Option VideoUrls :=
  match obj.uploaded_on with
  | none => none
  | some t =>
    let thumbnail_urls : List (Nat × String) :=
      match obj.thumbnail with
      | none => []
      | some th =>
        match th.uploaded_on with
        | none => []
        | some _ => (thumbnail_get_urls st th).getD []
    let base := st.protocol ++ "://" ++ st.cloudfront ++ "/" ++ obj.pk
    let stamp := to_timestamp t
    let mp4 := st.videoResolutions.map (fun r =>
      let u := base ++ "/mp4/" ++ stamp ++ "_" ++ toString r ++ ".mp4"
      (r, if st.signedUrlsActive then st.sign u else u))
    let thumbs := st.videoResolutions.map (fun r =>
      (r, (thumbnail_urls.lookup r).getD
        (base ++ "/thumbnails/" ++ stamp ++ "_" ++ toString r ++ ".0000000.jpg")))
    some
      { mp4 := mp4
        thumbnails := thumbs
        manifests_dash := base ++ "/cmaf/" ++ stamp ++ ".mpd"
        manifests_hls := base ++ "/cmaf/" ++ stamp ++ ".m3u8"
        previews := base ++ "/previews/" ++ stamp ++ "_100.jpg" }

/-- The XAPIStatementSerializer class object: its id field is declared with
default equal to str(uuid.uuid4()) — an expression evaluated ONCE, when the class
body runs at import time, so the class holds one fixed default string for the
whole process lifetime. -/
structure XAPIClass where
  id_default : String

/-- Evaluation of the class body of XAPIStatementSerializer (serializers.py
lines 412-423): gen is the stream of uuid4 draws the process would produce; the
class captures the single draw made at definition time. -/
def xapiStatementSerializerClass (gen : Nat → String) : XAPIClass :=
  { id_default := gen 0 }

/-- Validation of the id field of one submitted statement payload against the
class: an absent id falls back to the class default; a present id must match the
anchored UUID regex, else validation fails (none). -/
def xapiValidateId (cls : XAPIClass) (pid : Option String) : Option String :=
  match pid with
  | none => some cls.id_default
  | some v => if isUUIDChars v.data = true then some v else none

/-- A process lifetime of id validations: each element of payloadIds is the id
field of one submitted xAPI statement payload (none when the payload has no id),
validated in order against the one class object built at import time. -/
def xapiProcessRun (gen : Nat → String) (payloadIds : List (Option String)) :
    List (Option String) :=
  payloadIds.map (xapiValidateId (xapiStatementSerializerClass gen))

/-- Result of BulkDestroyModelMixin.bulk_destroy: the response status, the
forbidden ids listed by a 403 body, and the queryset rows remaining after the
call. -/
structure BDResult where
  status : Nat
  forbidden : Option (List String)
  remaining : List String
deriving DecidableEq

/-- Embedding of BulkDestroyModelMixin.bulk_destroy (base.py lines 297-320):
qs holds the primary keys of the permission-filtered queryset (str(x) is the
identity because pks are kept as strings), ids the list from the request body.
When the count of matching rows differs from the number of requested ids nothing
is deleted and the ids outside the permitted rows are reported with a 403;
otherwise the matching rows are deleted and the response is 204. -/
def bulk_destroy (qs ids : List String) : BDResult :=
  let objects_to_delete := qs.filter (fun pk => decide (pk ∈ ids))
  if objects_to_delete.length ≠ ids.length then
    let forbidden_ids := ids.filter (fun x => decide (x ∉ objects_to_delete))
    { status := 403, forbidden := some forbidden_ids, remaining := qs }
  else
    { status := 204, forbidden := none
      remaining := qs.filter (fun pk => decide (pk ∉ ids)) }

/-- Sample configuration for the concrete evaluations: one configured secret, a
keyed hash that tags the body with the secret, the three usual timed-text modes,
and extension-carrying model classes as in the repository. -/
def sampleCfg : Config :=
  { secrets := ["secret"]
    mac := fun s b => s ++ "." ++ b
    modes := ["st".data, "ts".data, "cc".data]
    hasExtension := fun m => m == "timedtexttrack" || m == "document" }

/-- A request carrying the given key and state, a valid signature header for raw
body "raw" under sampleCfg, a well-formed signature body field and an empty
extraParameters dict. -/
def mkReq (key state : String) : UpdateRequest :=
  { rawBody := "raw"
    headerSignature := some "secret.raw"
    key := some key
    state := some state
    signature := some "0123"
    extraParameters := [] }

def keyVideo44 : String :=
  "11111111-1111-1111-1111-111111111111/video/44444444-4444-4444-4444-444444444444/1600000000"

def keyVideo22 : String :=
  "11111111-1111-1111-1111-111111111111/video/22222222-2222-2222-2222-222222222222/1620000000"

def keyTrack33 : String :=
  "11111111-1111-1111-1111-111111111111/timedtexttrack/33333333-3333-3333-3333-333333333333/1620000000_fr_st"

def dbVideo44Pending : String → String → Option Entity := fun m o =>
  if m = "video" ∧ o = "44444444-4444-4444-4444-444444444444" then
    some { upload_state := PENDING, uploaded_on := none, extension := none }
  else none

def dbVideo22Pending : String → String → Option Entity := fun m o =>
  if m = "video" ∧ o = "22222222-2222-2222-2222-222222222222" then
    some { upload_state := PENDING, uploaded_on := none, extension := none }
  else none

def dbVideo22Uploaded : String → String → Option Entity := fun m o =>
  if m = "video" ∧ o = "22222222-2222-2222-2222-222222222222" then
    some { upload_state := PROCESSING, uploaded_on := some 5, extension := none }
  else none

def dbTrack33 : String → String → Option Entity := fun m o =>
  if m = "timedtexttrack" ∧ o = "33333333-3333-3333-3333-333333333333" then
    some { upload_state := PROCESSING, uploaded_on := none, extension := none }
  else none

def dbEmpty : String → String → Option Entity := fun _ _ => none

/-- C1: for every entity and well-formed authenticated (key, state=READY)
callback, delivering the callback twice should emit the notification exactly
once and leave upload_state and uploaded_on stable after the second delivery.
The code refutes this: each delivery — the first as much as the second, the
database being untouched in between — raises an uncaught KeyError reading
serializer.validated_data of base.py line 114, so it returns a server error with
no write and NO notification at all, evaluated here on a pending video and a
valid ready callback. -/
theorem update_state_ready_redelivery_crashes :
    update_state sampleCfg dbVideo44Pending (mkReq keyVideo44 "ready") =
      { response := .serverError "KeyError on extraParameters"
        savedEntity := none, signal := false } := by
  rfl

/-- C2 counterexample: a POST whose signature header validates against no
configured secret but whose body fails UpdateStateSerializer validation is
answered 400, not 403 — the serializer check of base.py line 100 precedes the
signature check of line 104 — refuting the claim's "regardless of the rest of
the request content". -/
theorem update_state_bad_sig_bad_payload_is_400 :
    validate_signature sampleCfg (some "bad") "raw" = false ∧
    (update_state sampleCfg dbEmpty
      { rawBody := "raw", headerSignature := some "bad", key := some "not-a-key"
        state := some "ready", signature := some "0123", extraParameters := [] }).response
      = .badRequest ∧
    (update_state sampleCfg dbEmpty
      { rawBody := "raw", headerSignature := some "bad", key := some "not-a-key"
        state := some "ready", signature := some "0123", extraParameters := [] }).response
      ≠ .forbidden := by
  refine ⟨rfl, rfl, ?_⟩
  decide

/-- C2 amended: a POST whose body passes UpdateStateSerializer validation but
whose signature header does not validate against any configured secret is
answered 403 with no mutation and no notification (a body failing validation is
answered 400 first, also without mutation). -/
theorem update_state_unauthenticated_valid_payload_403 (cfg : Config)
    (db : String → String → Option Entity) (req : UpdateRequest)
    (hv : serializerValid cfg req = true)
    (hs : validate_signature cfg req.headerSignature req.rawBody = false) :
    update_state cfg db req =
      { response := .forbidden, savedEntity := none, signal := false } := by
  simp [update_state, hv, hs]

def wReqC2 : UpdateRequest :=
  { rawBody := "raw", headerSignature := some "nope", key := some keyVideo22
    state := some "ready", signature := some "0123", extraParameters := [] }

theorem update_state_unauthenticated_valid_payload_403_witness :
    serializerValid sampleCfg wReqC2 = true ∧
    validate_signature sampleCfg wReqC2.headerSignature wReqC2.rawBody = false ∧
    update_state sampleCfg dbEmpty wReqC2 =
      { response := .forbidden, savedEntity := none, signal := false } :=
  ⟨rfl, rfl, update_state_unauthenticated_valid_payload_403 sampleCfg dbEmpty wReqC2 rfl rfl⟩

/-- C3 counterexample: KEY_REGEX alternates only video, thumbnail and
timedtexttrack (serializers.py line 25), so a key assembled with model_name
document — well-formed UUIDs and a 10-digit timestamp notwithstanding — does not
match the key grammar, refuting the claim for document. -/
theorem key_document_does_not_match :
    parseKeyChars sampleCfg.modes
      ("11111111-1111-1111-1111-111111111111/document/22222222-2222-2222-2222-222222222222/1620000000").data
      = none := by
  rfl

/-- C3 amended: for every owner and object UUID, every 10-digit timestamp and
every model_name among video, thumbnail and timedtexttrack (document is not in
the grammar), the key assembled as owner/model_name/object/timestamp matches
KEY_REGEX and parses back to exactly the same model_name, object_id and stamp,
with no suffix. -/
theorem key_roundtrip (modes : List (List Char)) (u1 m u2 ts : List Char)
    (h1 : isUUIDChars u1 = true) (h2 : isUUIDChars u2 = true)
    (hts : ts.length = 10) (htsd : ts.all Char.isDigit = true)
    (hm : m = "video".data ∨ m = "thumbnail".data ∨ m = "timedtexttrack".data) :
    parseKeyChars modes (u1 ++ '/' :: (m ++ '/' :: (u2 ++ '/' :: ts))) =
      some { model_name := m, object_id := u2, stamp := ts, suffix := none } := by
  have hm_ns : ∀ c ∈ m, c ≠ '/' := by
    rcases hm with h | h | h <;> subst h <;> decide
  have hts_ns : ∀ c ∈ ts, c ≠ '/' :=
    fun c hc => isDigit_ne_slash c (List.all_eq_true.mp htsd c hc)
  have s1 := splitOnChar_append '/' u1 (m ++ '/' :: (u2 ++ '/' :: ts))
    (isUUIDChars_no_slash u1 h1)
  have s2 := splitOnChar_append '/' m (u2 ++ '/' :: ts) hm_ns
  have s3 := splitOnChar_append '/' u2 ts (isUUIDChars_no_slash u2 h2)
  have s4 := splitOnChar_eq_single '/' ts hts_ns
  unfold parseKeyChars
  rw [s1, s2, s3, s4]
  have hstep : parseKeyParts modes [u1, m, u2, ts] =
      if isUUIDChars u1 = true
          ∧ (m = "video".data ∨ m = "thumbnail".data ∨ m = "timedtexttrack".data)
          ∧ isUUIDChars u2 = true then
        match parseStampSuffix modes ts with
        | some (stamp, suf) =>
          some { model_name := m, object_id := u2, stamp := stamp, suffix := suf }
        | none => none
      else none := rfl
  rw [hstep, if_pos ⟨h1, hm, h2⟩, parseStampSuffix_stamp_only modes ts hts htsd]

theorem key_roundtrip_witness :
    isUUIDChars ("11111111-1111-1111-1111-111111111111").data = true ∧
    isUUIDChars ("22222222-2222-2222-2222-222222222222").data = true ∧
    ("1620000000").data.length = 10 ∧
    ("1620000000").data.all Char.isDigit = true ∧
    parseKeyChars [] (("11111111-1111-1111-1111-111111111111").data ++ '/' ::
        (("video").data ++ '/' :: (("22222222-2222-2222-2222-222222222222").data ++ '/' ::
          ("1620000000").data))) =
      some { model_name := ("video").data
             object_id := ("22222222-2222-2222-2222-222222222222").data
             stamp := ("1620000000").data, suffix := none } :=
  ⟨rfl, rfl, rfl, rfl,
    key_roundtrip [] _ _ _ _ rfl rfl rfl rfl (Or.inl rfl)⟩

/-- C4: on the spec's example — key with embedded timestamp 1620000000, state
ready, a pending video — the claim expects upload_state READY, uploaded_on set
from the timestamp and one notification. The code instead raises the uncaught
KeyError of base.py line 114 before fetching the entity: a server error, no
write, no notification. -/
theorem update_state_spec_example_crashes :
    update_state sampleCfg dbVideo22Pending (mkReq keyVideo22 "ready") =
      { response := .serverError "KeyError on extraParameters"
        savedEntity := none, signal := false } := by
  rfl

/-- C5: a valid authenticated callback whose key names an entity that does not
exist should be answered 404 with success false and no mutation. The code raises
the uncaught KeyError of base.py line 114 before the model.objects.get of line
125, so the dead 404 branch is never reached and the response is a server error
(no mutation indeed happens). -/
theorem update_state_unknown_object_crashes :
    update_state sampleCfg dbEmpty (mkReq keyVideo22 "ready") =
      { response := .serverError "KeyError on extraParameters"
        savedEntity := none, signal := false } := by
  rfl

/-- C6: a valid authenticated callback with state error should set upload_state
ERROR, keep uploaded_on unchanged and emit nothing. The code raises the uncaught
KeyError of base.py line 114, so upload_state is never set to ERROR — evaluated
here on a processing video with uploaded_on already set. -/
theorem update_state_error_state_crashes :
    update_state sampleCfg dbVideo22Uploaded (mkReq keyVideo22 "error") =
      { response := .serverError "KeyError on extraParameters"
        savedEntity := none, signal := false } := by
  rfl

/-- C7: for a ready callback on an extension-carrying model whose key carries the
optional lang/mode suffix and whose extraParameters hold no extension, the claim
expects the extension derived from the suffix. The code crashes with the
uncaught KeyError of base.py line 114 first; and independently, the named groups
of KEY_REGEX are only model_name, object_id and stamp, so
key_elements.get("extension") — the value line 122 would store — is Python None,
never a value derived from the suffix. -/
theorem update_state_suffix_extension_crashes_and_none :
    update_state sampleCfg dbTrack33 (mkReq keyTrack33 "ready") =
      { response := .serverError "KeyError on extraParameters"
        savedEntity := none, signal := false } ∧
    (parseKeyChars sampleCfg.modes keyTrack33.data).map
        (fun pk => (keyElementsDict pk).lookup "extension") = some none := by
  exact ⟨rfl, rfl⟩

/-- C8: the default id of XAPIStatementSerializer is the str(uuid.uuid4())
evaluated once at class-definition time, so any two payloads submitted without an
id, validated at any two points of the same process lifetime, are assigned the
same default UUID string — the class's fixed default, the process's draw 0. -/
theorem xapi_default_id_fixed (gen : Nat → String) (ps : List (Option String))
    (i j : Nat) (hi : ps[i]? = some none) (hj : ps[j]? = some none) :
    (xapiProcessRun gen ps)[i]? = (xapiProcessRun gen ps)[j]? ∧
    (xapiProcessRun gen ps)[i]? =
      some (some (xapiStatementSerializerClass gen).id_default) := by
  unfold xapiProcessRun
  rw [List.getElem?_map, List.getElem?_map, hi, hj]
  simp [xapiValidateId]

theorem xapi_default_id_fixed_witness :
    ([none, none] : List (Option String))[0]? = some none ∧
    ([none, none] : List (Option String))[1]? = some none ∧
    ((xapiProcessRun (fun n => toString n) [none, none])[0]? =
        (xapiProcessRun (fun n => toString n) [none, none])[1]? ∧
      (xapiProcessRun (fun n => toString n) [none, none])[0]? =
        some (some (xapiStatementSerializerClass (fun n => toString n)).id_default)) :=
  ⟨rfl, rfl, xapi_default_id_fixed (fun n => toString n) [none, none] 0 1 rfl rfl⟩

/-- C9: for every timed text track, thumbnail and video, the serializer's
url/urls value is None exactly when the object's uploaded_on is null, and is a
url (or dict of urls) whenever uploaded_on is set. -/
theorem serializer_url_none_iff_not_uploaded (st : CFSettings)
    (t : TimedTextTrackObj) (th : ThumbnailObj) (v : VideoObj) :
    (ttt_get_url st t = none ↔ t.uploaded_on = none) ∧
    (thumbnail_get_urls st th = none ↔ th.uploaded_on = none) ∧
    (video_get_urls st v = none ↔ v.uploaded_on = none) := by
  refine ⟨?_, ?_, ?_⟩
  · cases h : t.uploaded_on <;> simp [ttt_get_url, h]
  · cases h : th.uploaded_on <;> simp [thumbnail_get_urls, h]
  · cases h : v.uploaded_on <;> simp [video_get_urls, h]

/-- C10: bulk_destroy is all-or-nothing — the response is 204 exactly when the
permitted rows matching the ids are as many as the requested ids, and then
precisely the matching rows are deleted; otherwise nothing at all is deleted and
the 403 body lists exactly the requested ids that are not among the permitted
rows. -/
theorem bulk_destroy_all_or_nothing (qs ids : List String) :
    ((bulk_destroy qs ids).status = 204 ↔
      (qs.filter (fun pk => decide (pk ∈ ids))).length = ids.length) ∧
    (((bulk_destroy qs ids).status = 403 ∧ (bulk_destroy qs ids).remaining = qs ∧
        ∃ f, (bulk_destroy qs ids).forbidden = some f ∧
          ∀ x, x ∈ f ↔ x ∈ ids ∧ x ∉ qs) ∨
      ((bulk_destroy qs ids).status = 204 ∧ (bulk_destroy qs ids).forbidden = none ∧
        ∀ pk, pk ∈ (bulk_destroy qs ids).remaining ↔ pk ∈ qs ∧ pk ∉ ids)) := by
  by_cases h : (qs.filter (fun pk => decide (pk ∈ ids))).length = ids.length
  · have hres : bulk_destroy qs ids =
        { status := 204, forbidden := none
          remaining := qs.filter (fun pk => decide (pk ∉ ids)) } := by
      unfold bulk_destroy
      simp [h]
    rw [hres]
    refine ⟨by simp [h], Or.inr ⟨rfl, rfl, ?_⟩⟩
    intro pk
    simp [List.mem_filter]
  · have hres : bulk_destroy qs ids =
        { status := 403
          forbidden := some (ids.filter (fun x =>
            decide (x ∉ qs.filter (fun pk => decide (pk ∈ ids)))))
          remaining := qs } := by
      unfold bulk_destroy
      simp [h]
    rw [hres]
    refine ⟨by simp [h], Or.inl ⟨rfl, rfl, ⟨_, rfl, ?_⟩⟩⟩
    intro x
    simp only [List.mem_filter, decide_eq_true_eq]
    constructor
    · rintro ⟨hx, hnx⟩
      exact ⟨hx, fun hq => hnx ⟨hq, hx⟩⟩
    · rintro ⟨hx, hnq⟩
      exact ⟨hx, fun hmem => hnq hmem.1⟩

end Marsha
